import Mathlib

/-!
# Shallow embedding of the MyWallet Telegram bots

The repository bundles three small Telegram bots:

* a "Stars → USDT" exchange bot (`src/index.js`, first part): a Telegraf bot
  with a local sqlite `sales` table, an amount-selection callback, a text
  handler that collects a wallet address and sends an invoice, and a
  `successful_payment` handler that inserts a sale row and notifies the admin;
* a BitMart trading bot using `@bitmartexchange/bitmart-node-sdk`
  (`src/index.js`, second part): commands `/balance`, `/spotbuy`, `/spotsell`,
  `/withdraw`, `/futures`;
* a BitMart trading bot using `bitmart-api` (`src/unnamed/part_000`):
  commands `/balance`, `/spot-buy`, `/spot-sell`, `/withdraw`,
  `/futures-order`.

Each handler is embedded as a pure Lean function from the incoming message
(and the SDK's response, passed in as an `Except` value standing for the
awaited promise) to a record of the outbound SDK calls, chat replies and
`console.error` logs it produces.  The Stars bot additionally threads the
per-chat session object and the sqlite table (a list of rows) through its
handlers.  JavaScript doubles that matter to the claims are modelled exactly
as dyadic rationals (`Dy` below); decimal values produced by `parseFloat`
are modelled exactly as scaled integers (`Dec10`).
-/

namespace MyWallet

/-! ## JavaScript string helpers

The handlers use `String.prototype.split`, `String.prototype.trim`,
`parseInt`, `parseFloat`, `toUpperCase`/`toLowerCase`.  They are embedded
structurally over `List Char` so that every definition reduces in the
kernel.  JS whitespace (`\s`) is modelled by its ASCII fragment, which is
all the bot messages can contain at the split positions that matter. -/

/-- ASCII fragment of JavaScript's `\s` character class. -/
def isWsChar (c : Char) : Bool :=
  c = ' ' || c = '\t' || c = '\n' || c = '\r'

/-- Decimal digit test. -/
def isDigitChar (c : Char) : Bool :=
  '0' ≤ c && c ≤ '9'

/-- `split(sep)` with a single-character string separator, JS semantics:
empty fields are kept, `""` splits to `[""]`. -/
def jsSplitCharAux (sep : Char) : List Char → List Char → List String
  | [], acc => [String.mk acc.reverse]
  | c :: cs, acc =>
    if c = sep then String.mk acc.reverse :: jsSplitCharAux sep cs []
    else jsSplitCharAux sep cs (c :: acc)

/-- `text.split(' ')` (variant-B command handlers). -/
def jsSplitSpace (s : String) : List String :=
  jsSplitCharAux ' ' s.toList []

/-- `text.split(/\s+/)`: fields separated by maximal whitespace runs; a
leading run yields an empty first field and a trailing run an empty last
field, as in JavaScript.  The flag records that the current whitespace run
has already emitted its field. -/
def jsSplitWsAux (skipping : Bool) : List Char → List Char → List String
  | [], acc => [String.mk acc.reverse]
  | c :: cs, acc =>
    if isWsChar c then
      if skipping then jsSplitWsAux true cs acc
      else String.mk acc.reverse :: jsSplitWsAux true cs []
    else jsSplitWsAux false cs (c :: acc)

/-- `text.split(/\s+/)` (variant-C command handlers). -/
def jsSplitWs (s : String) : List String :=
  jsSplitWsAux false s.toList []

/-- `s.trim()`: strip leading and trailing whitespace. -/
def jsTrim (s : String) : String :=
  String.mk (((s.toList.dropWhile isWsChar).reverse.dropWhile isWsChar).reverse)

/-- Value of a list of decimal digits. -/
def digitsToNat (l : List Char) : ℕ :=
  l.foldl (fun n c => 10 * n + (c.toNat - '0'.toNat)) 0

/-- `parseInt` on an all-digit capture such as the `stars_(\d+)` match. -/
def parseIntNat (s : String) : ℕ :=
  digitsToNat (s.toList.takeWhile isDigitChar)

/-- `s.toUpperCase()` (ASCII). -/
def jsToUpper (s : String) : String :=
  String.mk (s.toList.map Char.toUpper)

/-- `s.toLowerCase()` (ASCII). -/
def jsToLower (s : String) : String :=
  String.mk (s.toList.map Char.toLower)

/-- Boolean substring test: `needle` occurs contiguously in `hay`. -/
def containsSub (hay needle : String) : Bool :=
  (hay.toList.tails.any fun t => needle.toList.isPrefixOf t)

/-! ## Exact decimal values (`parseFloat` results)

`parseFloat` is applied by the `/balance` handlers to the `available` and
`frozen` string fields of balance entries.  Its numeric result is modelled
exactly as `num / 10 ^ den10`; `none` stands for `NaN`.  (JavaScript rounds
the value to binary64; for the sign tests `> 0` used by the handlers the
rounding never changes the outcome, as a nonzero value stays nonzero and
signs are preserved, so the exact decimal model is faithful there.) -/

/-- A decimal-scaled integer: the value `num / 10 ^ den10`. -/
structure Dec10 where
  num : ℤ
  den10 : ℕ
deriving Repr, DecidableEq

/-- Split a char list at its leading digit run. -/
def spanDigits (l : List Char) : List Char × List Char :=
  (l.takeWhile isDigitChar, l.dropWhile isDigitChar)

/-- Parse the optional exponent suffix `e`/`E` `[+-]` digits; an `e` not
followed by a digit contributes exponent `0`, as in JS `parseFloat`. -/
def parseExp (l : List Char) : ℤ :=
  match l with
  | c :: t =>
    if c = 'e' || c = 'E' then
      match t with
      | '-' :: t2 => let d := spanDigits t2
                     if d.1 = [] then 0 else -(digitsToNat d.1 : ℤ)
      | '+' :: t2 => let d := spanDigits t2
                     if d.1 = [] then 0 else (digitsToNat d.1 : ℤ)
      | _ => let d := spanDigits t
             if d.1 = [] then 0 else (digitsToNat d.1 : ℤ)
    else 0
  | [] => 0

/-- Assemble sign, integer digits, fraction digits and exponent into an
exact decimal value. -/
def mkDecValue (sgn : ℤ) (ip fp : List Char) (e : ℤ) : Dec10 :=
  let mant : ℕ := digitsToNat (ip ++ fp)
  let shift : ℤ := e - (fp.length : ℤ)
  if 0 ≤ shift then ⟨sgn * (mant : ℤ) * 10 ^ shift.toNat, 0⟩
  else ⟨sgn * (mant : ℤ), (-shift).toNat⟩

/-- JavaScript `parseFloat` on the decimal fragment of its grammar: skip
leading whitespace, optional sign, digits with optional fraction, optional
exponent; `NaN` (here `none`) when no digits are found.  The `Infinity`
keyword is not modelled; no balance string uses it. -/
def jsParseFloat (s : String) : Option Dec10 :=
  let cs := s.toList.dropWhile isWsChar
  let sgned : ℤ × List Char :=
    match cs with
    | '-' :: t => (-1, t)
    | '+' :: t => (1, t)
    | _ => (1, cs)
  let (ip, r1) := spanDigits sgned.2
  let fpr : List Char × List Char :=
    match r1 with
    | '.' :: t => spanDigits t
    | _ => ([], r1)
  if ip = [] ∧ fpr.1 = [] then none
  else some (mkDecValue sgned.1 ip fpr.1 (parseExp fpr.2))

/-- JS `x > 0` where `x` may be `NaN` (`NaN > 0` is `false`). -/
def jsGtZero : Option Dec10 → Bool
  | none => false
  | some d => decide (0 < d.num)

/-- JS `x + y` where either side may be `NaN` (`NaN` propagates). -/
def jsAddNum : Option Dec10 → Option Dec10 → Option Dec10
  | some a, some b => some ⟨a.num * 10 ^ b.den10 + b.num * 10 ^ a.den10,
                            a.den10 + b.den10⟩
  | _, _ => none

/-! ## Balance entries and the two `/balance` filters -/

/-- One entry of the exchange's balance list: raw string fields as returned
by the REST API. -/
structure RawBalance where
  currency : String
  available : String
  frozen : String
deriving Repr, DecidableEq

/-- Variant-B filter: `parseFloat(b.available) > 0 || parseFloat(b.frozen) > 0`. -/
def balanceFilterB (b : RawBalance) : Bool :=
  jsGtZero (jsParseFloat b.available) || jsGtZero (jsParseFloat b.frozen)

/-- Variant-C filter: `parseFloat(b.available) + parseFloat(b.frozen) > 0`. -/
def balanceFilterC (b : RawBalance) : Bool :=
  jsGtZero (jsAddNum (jsParseFloat b.available) (jsParseFloat b.frozen))

/-! ## Exact binary64 arithmetic for the Stars price computation

`src/index.js` computes `usdt = (stars * RATE).toFixed(2)` with
`RATE = 0.0039`, in IEEE-754 double precision.  All values arising there are
positive and far inside the normal range, so a double is represented exactly
as a nonnegative dyadic `m * 2 ^ e` with a 53-bit significand, and the two
roundings that occur — the decimal literal `0.0039` to a double, and the
product `stars * RATE` — are round-to-nearest, ties to even.  Everything is
ℕ/ℤ arithmetic so that the theorems evaluate in the kernel. -/

/-- A nonnegative dyadic value `m * 2 ^ e`. -/
structure Dy where
  m : ℕ
  e : ℤ
deriving Repr, DecidableEq

/-- Number of bits of `n` (`0` for `0`), with structural fuel. -/
def bitLenAux : ℕ → ℕ → ℕ
  | 0, _ => 0
  | fuel + 1, n => if n = 0 then 0 else bitLenAux fuel (n / 2) + 1

/-- Bit length, enough fuel for every value in this development. -/
def bitLen (n : ℕ) : ℕ := bitLenAux 4096 n

/-- Round `a / b` to the nearest integer, ties to even (`b > 0`). -/
def roundNEDiv (a b : ℕ) : ℕ :=
  let q := a / b
  let r := a % b
  if 2 * r < b then q
  else if b < 2 * r then q + 1
  else if q % 2 = 0 then q else q + 1

/-- Renormalise a significand that rounding may have pushed to `2 ^ 53`. -/
def dyNorm (m : ℕ) (e : ℤ) : Dy :=
  if m = 2 ^ 53 then ⟨2 ^ 52, e + 1⟩ else ⟨m, e⟩

/-- Round the exact value `p * 2 ^ e` (any `p`) to a 53-bit significand,
round-to-nearest ties-to-even. -/
def dyRound (p : ℕ) (e : ℤ) : Dy :=
  if p = 0 then ⟨0, 0⟩
  else
    let l := bitLen p
    if l ≤ 53 then ⟨p, e⟩
    else
      let s := l - 53
      dyNorm (roundNEDiv p (2 ^ s)) (e + s)

/-- Round the positive rational `a / b` to the nearest double. -/
def dyOfFrac (a b : ℕ) : Dy :=
  -- floor of log2 (a / b): candidate from the bit lengths, fixed up by one.
  let k : ℤ := (bitLen a : ℤ) - (bitLen b : ℤ)
  let k : ℤ := if b * 2 ^ k.toNat ≤ a ∧ 0 ≤ k then k else k - 1
  -- significand: round (a / b * 2 ^ (52 - k)) to the nearest integer.
  let t : ℤ := 52 - k
  let m := if 0 ≤ t then roundNEDiv (a * 2 ^ t.toNat) b
           else roundNEDiv a (b * 2 ^ (-t).toNat)
  dyNorm m (k - 52)

/-- The double value of the literal `0.0039` (`RATE` in `src/index.js`). -/
def RATE_fp : Dy := dyOfFrac 39 10000

/-- Double multiplication of nonnegative dyadics: exact product, then one
round-to-nearest-even to 53 bits. -/
def dyMul (x y : Dy) : Dy :=
  dyRound (x.m * y.m) (x.e + y.e)

/-- Dyadic value of a natural number (exact as a double for `n < 2 ^ 53`,
which covers every stars amount and `stars * 100000`). -/
def dyOfNat (n : ℕ) : Dy := ⟨n, 0⟩

/-- Two-digit rendering of `n < 100`. -/
def pad2 (n : ℕ) : String :=
  if n < 10 then "0" ++ toString n else toString n

/-- `x.toFixed(2)` for a nonnegative double `x = m * 2 ^ e`: the integer
`k` minimising `|k / 100 - x|`, larger `k` on ties (ECMA-262), rendered
with exactly two decimals.  For `e < 0` this is
`⌊(200 m + 2 ^ (1 - e)) / 2 ^ (1 - e)⌋`-style integer arithmetic. -/
def jsToFixed2 (x : Dy) : String :=
  let k : ℕ :=
    if 0 ≤ x.e then 100 * x.m * 2 ^ x.e.toNat
    else
      let t := (-x.e).toNat
      -- round half up: ⌊100 * m / 2^t + 1/2⌋ = (200 * m + 2^t) / 2^(t+1)
      (200 * x.m + 2 ^ t) / 2 ^ (t + 1)
  toString (k / 100) ++ "." ++ pad2 (k % 100)

/-- The string the Stars bot displays for `stars` stars:
`(stars * RATE).toFixed(2)`. -/
def usdtDisplay (stars : ℕ) : String :=
  jsToFixed2 (dyMul (dyOfNat stars) RATE_fp)

/-! ## JSON values, `JSON.stringify`, and JavaScript errors

The trading handlers reply with `JSON.stringify(res)` (variant C) or
`JSON.stringify(res, null, 2)` (variant B).  JSON trees are modelled with
integer numerals (no response inspected by a claim carries a fractional
number) and `jsonStringify` renders the compact form; the pretty-printing
indentation of the three-argument call is not modelled, which no claim
depends on. -/

inductive Json where
  | null
  | bool (b : Bool)
  | num (n : ℤ)
  | str (s : String)
  | arr (elems : List Json)
  | obj (fields : List (String × Json))
deriving Repr

mutual

/-- Compact `JSON.stringify`. -/
def jsonStringify : Json → String
  | .null => "null"
  | .bool b => if b then "true" else "false"
  | .num n => toString n
  | .str s => "\"" ++ s ++ "\""
  | .arr xs => "[" ++ jsonStringifyList xs ++ "]"
  | .obj fs => "\x7b" ++ jsonStringifyFields fs ++ "\x7d"

def jsonStringifyList : List Json → String
  | [] => ""
  | [x] => jsonStringify x
  | x :: xs => jsonStringify x ++ "," ++ jsonStringifyList xs

def jsonStringifyFields : List (String × Json) → String
  | [] => ""
  | [(k, v)] => "\"" ++ k ++ "\":" ++ jsonStringify v
  | (k, v) :: fs => "\"" ++ k ++ "\":" ++ jsonStringify v ++ "," ++ jsonStringifyFields fs

end

/-- A caught JavaScript error: its `message` property (`none` when
`undefined`) and the JSON tree `JSON.stringify(err)` serialises. -/
structure JsErr where
  message : Option String
  json : Json
deriving Repr

/-- Variant B renders errors as `'...' + err.message`: string concatenation
turns an `undefined` message into the text `undefined`. -/
def jsErrShowB (e : JsErr) : String :=
  match e.message with
  | some s => s
  | none => "undefined"

/-- Variant C renders errors as `err.message || JSON.stringify(err)`: an
absent or empty message falls back to the serialised error. -/
def jsErrShowC (e : JsErr) : String :=
  match e.message with
  | some s => if s = "" then jsonStringify e.json else s
  | none => jsonStringify e.json

/-- `first_name || 'trader'`-style JS defaulting: `undefined` and the empty
string are falsy. -/
def jsOrStr (o : Option String) (d : String) : String :=
  match o with
  | some s => if s = "" then d else s
  | none => d

/-! ## Outbound SDK calls and handler results

Each constructor records one SDK method together with the parameter object
the handler builds for it, field by field in source order. -/

inductive SdkCall where
  /-- B: `spotClient.getAccountBalance()`. -/
  | getAccountBalance
  /-- B: `spotClient.submitOrder({symbol, side, type, size, price})`. -/
  | spotSubmitOrder (symbol side type size price : String)
  /-- B: `spotClient.submitWithdraw({currency, amount, address, network})`. -/
  | submitWithdraw (currency amount address network : String)
  /-- B: `futuresClient.submitOrder({symbol, side, type, size, price})`. -/
  | futuresSubmitOrder (symbol side type size price : String)
  /-- C: `restClient.getAccountBalancesV1()`. -/
  | getAccountBalancesV1
  /-- C: `restClient.submitSpotOrderV2({symbol, side, type, size, price})`. -/
  | submitSpotOrderV2 (symbol side type size price : String)
  /-- C: `restClient.createWithdrawalV1({currency, amount, address})`. -/
  | createWithdrawalV1 (currency amount address : String)
  /-- C: `restClient.submitWithdrawV1({currency, amount, address})`. -/
  | submitWithdrawV1 (currency amount address : String)
  /-- C: `restClient.request('POST', '/wallet/withdrawal', payload)`. -/
  | rawRequest (method path currency amount address : String)
  /-- C: `futuresClient.submitContractOrder({symbol, side, size, price,
  order_type})`. -/
  | submitContractOrder (symbol side size price orderType : String)
deriving Repr, DecidableEq

/-- What one execution of a trading-command handler produces: the outbound
SDK calls it awaited (in order), the chat replies it sent, and the errors it
passed to `console.error`.  The handlers touch no other state. -/
structure HandlerResult where
  calls : List SdkCall
  replies : List String
  logs : List JsErr
deriving Repr

/-! ## Variant B (`@bitmartexchange/bitmart-node-sdk` bot)

Each handler takes the raw message text and, standing for the awaited
promise of the one SDK method it may call, an `Except` value: `.ok` is the
resolved response, `.error` the caught rejection. -/

/-- Shape of `getAccountBalance()` responses as the handler reads them:
`result.data?.balances || []`. -/
structure BalDataB where
  balances : Option (List RawBalance)
deriving Repr, DecidableEq

structure BalRespB where
  data : Option BalDataB
deriving Repr, DecidableEq

/-- `result.data?.balances || []`. -/
def balancesOfB (r : BalRespB) : List RawBalance :=
  match r.data with
  | none => []
  | some d => d.balances.getD []

/-- The message built by the `for (const b of nonZero)` loop. -/
def balanceLinesB (l : List RawBalance) : String :=
  l.foldl
    (fun msg b =>
      msg ++ b.currency ++ ": available=" ++ b.available ++ ", frozen=" ++ b.frozen ++ "\n")
    "💰 Your Balances:\n"

/-- `bot.command('balance')` of variant B. -/
def balanceBHandler (resp : Except JsErr BalRespB) : HandlerResult :=
  match resp with
  | .error e => ⟨[.getAccountBalance], ["❌ Error getting balance: " ++ jsErrShowB e], [e]⟩
  | .ok r =>
    let nonZero := (balancesOfB r).filter balanceFilterB
    if nonZero.length = 0 then ⟨[.getAccountBalance], ["No non-zero balances found."], []⟩
    else ⟨[.getAccountBalance], [balanceLinesB nonZero], []⟩

/-- `bot.command('spotbuy')` of variant B. -/
def spotbuyHandler (text : String) (resp : Except JsErr Json) : HandlerResult :=
  let parts := jsSplitSpace text
  if parts.length < 4 then
    ⟨[], ["Usage: /spotbuy SYMBOL SIZE PRICE\nExample: /spotbuy BTC_USDT 0.001 30000"], []⟩
  else
    match parts with
    | _ :: symbol :: size :: price :: _ =>
      let call := SdkCall.spotSubmitOrder symbol "buy" "limit" size price
      match resp with
      | .ok res => ⟨[call], ["✅ Spot BUY order placed!\n" ++ jsonStringify res], []⟩
      | .error e => ⟨[call], ["❌ Error placing buy order: " ++ jsErrShowB e], [e]⟩
    | _ => ⟨[], [], []⟩

/-- `bot.command('spotsell')` of variant B. -/
def spotsellHandler (text : String) (resp : Except JsErr Json) : HandlerResult :=
  let parts := jsSplitSpace text
  if parts.length < 4 then
    ⟨[], ["Usage: /spotsell SYMBOL SIZE PRICE\nExample: /spotsell BTC_USDT 0.001 35000"], []⟩
  else
    match parts with
    | _ :: symbol :: size :: price :: _ =>
      let call := SdkCall.spotSubmitOrder symbol "sell" "limit" size price
      match resp with
      | .ok res => ⟨[call], ["✅ Spot SELL order placed!\n" ++ jsonStringify res], []⟩
      | .error e => ⟨[call], ["❌ Error placing sell order: " ++ jsErrShowB e], [e]⟩
    | _ => ⟨[], [], []⟩

/-- `bot.command('withdraw')` of variant B. -/
def withdrawBHandler (text : String) (resp : Except JsErr Json) : HandlerResult :=
  let parts := jsSplitSpace text
  if parts.length < 4 then
    ⟨[], ["Usage: /withdraw CURRENCY ADDRESS AMOUNT\nExample: /withdraw USDT TXxxxxxx 10"], []⟩
  else
    match parts with
    | _ :: currency :: address :: amount :: _ =>
      let call := SdkCall.submitWithdraw currency amount address "TRC20"
      match resp with
      | .ok res => ⟨[call], ["✅ Withdrawal submitted!\n" ++ jsonStringify res], []⟩
      | .error e => ⟨[call], ["❌ Error submitting withdrawal: " ++ jsErrShowB e], [e]⟩
    | _ => ⟨[], [], []⟩

/-- `bot.command('futures')` of variant B. -/
def futuresBHandler (text : String) (resp : Except JsErr Json) : HandlerResult :=
  let parts := jsSplitSpace text
  if parts.length < 5 then
    ⟨[], ["Usage: /futures SYMBOL SIDE SIZE PRICE\nExample: /futures BTCUSDT buy 1 30000"], []⟩
  else
    match parts with
    | _ :: symbol :: side :: size :: price :: _ =>
      let call := SdkCall.futuresSubmitOrder symbol (jsToUpper side) "limit" size price
      match resp with
      | .ok res => ⟨[call], ["✅ Futures order placed!\n" ++ jsonStringify res], []⟩
      | .error e => ⟨[call], ["❌ Error placing futures order: " ++ jsErrShowB e], [e]⟩
    | _ => ⟨[], [], []⟩

/-! ## Variant C (`bitmart-api` bot, `src/unnamed/part_000`)

The withdraw and futures handlers probe the installed SDK for methods with
`typeof ... === 'function'`; the probe results are a parameter of the
embedding (`SdkAvailC`). -/

/-- Which optional SDK methods exist on the installed clients. -/
structure SdkAvailC where
  createWithdrawalV1 : Bool
  submitWithdrawV1 : Bool
  request : Bool
  submitContractOrder : Bool
deriving Repr, DecidableEq

/-- Shape of `getAccountBalancesV1()` responses as the handler reads them:
`(res && res.data) ? res.data : res`, i.e. the balance list is either under
`data` or the response itself. -/
structure BalRespC where
  data : Option (List RawBalance)
  self : List RawBalance
deriving Repr

/-- `(res && res.data) ? res.data : res` followed by `(balances || [])`. -/
def balancesOfC (r : BalRespC) : List RawBalance :=
  r.data.getD r.self

/-- `nonZero.map(...)` joined with `'\n'`. -/
def balanceLinesC (l : List RawBalance) : String :=
  String.intercalate "\n"
    (l.map fun b => b.currency ++ ": available=" ++ b.available ++ " frozen=" ++ b.frozen)

/-- `bot.command('balance')` of variant C. -/
def balanceCHandler (resp : Except JsErr BalRespC) : HandlerResult :=
  match resp with
  | .error e => ⟨[.getAccountBalancesV1], ["Error fetching balances: " ++ jsErrShowC e], [e]⟩
  | .ok r =>
    let nonZero := (balancesOfC r).filter balanceFilterC
    if nonZero.length = 0 then ⟨[.getAccountBalancesV1], ["No non-zero balances found."], []⟩
    else ⟨[.getAccountBalancesV1], [balanceLinesC nonZero], []⟩

/-- `bot.command('spot-buy')` of variant C. -/
def spotBuyCHandler (text : String) (resp : Except JsErr Json) : HandlerResult :=
  let parts := jsSplitWs text
  if parts.length < 5 then
    ⟨[], ["Usage: /spot-buy SYMBOL side size price\nExample: /spot-buy BTC_USDT buy 0.001 30000"], []⟩
  else
    match parts with
    | _ :: symbol :: side :: size :: price :: _ =>
      -- `String(size)` and `String(price)` are identities on the split fields.
      let call := SdkCall.submitSpotOrderV2 symbol side "limit" size price
      match resp with
      | .ok res => ⟨[call], ["Spot order response: " ++ jsonStringify res], []⟩
      | .error e => ⟨[call], ["Error placing spot buy: " ++ jsErrShowC e], [e]⟩
    | _ => ⟨[], [], []⟩

/-- `bot.command('spot-sell')` of variant C. -/
def spotSellCHandler (text : String) (resp : Except JsErr Json) : HandlerResult :=
  let parts := jsSplitWs text
  if parts.length < 5 then
    ⟨[], ["Usage: /spot-sell SYMBOL side size price\nExample: /spot-sell BTC_USDT sell 0.001 35000"], []⟩
  else
    match parts with
    | _ :: symbol :: side :: size :: price :: _ =>
      let call := SdkCall.submitSpotOrderV2 symbol side "limit" size price
      match resp with
      | .ok res => ⟨[call], ["Spot sell response: " ++ jsonStringify res], []⟩
      | .error e => ⟨[call], ["Error placing spot sell: " ++ jsErrShowC e], [e]⟩
    | _ => ⟨[], [], []⟩

/-- The `Error` thrown when no withdrawal method exists on the SDK. -/
def noWithdrawMethodErr : JsErr :=
  ⟨some "Withdrawal method not available on installed SDK; check your SDK docs and adjust code.",
   Json.obj []⟩

/-- The `Error` thrown when `submitContractOrder` is missing. -/
def noFuturesMethodErr : JsErr :=
  ⟨some "Futures order method not found in SDK. See SDK docs for exact function name.",
   Json.obj []⟩

/-- `bot.command('withdraw')` of variant C: tries `createWithdrawalV1`,
then `submitWithdrawV1`, then the generic `request`; with none available it
throws, and its own `catch` turns the throw into an error reply. -/
def withdrawCHandler (avail : SdkAvailC) (text : String)
    (resp : Except JsErr Json) : HandlerResult :=
  let parts := jsSplitWs text
  if parts.length < 4 then
    ⟨[], ["Usage: /withdraw CURRENCY address amount\nExample: /withdraw USDT Txxxx 10"], []⟩
  else
    match parts with
    | _ :: currency :: address :: amount :: _ =>
      let run : SdkCall → HandlerResult := fun call =>
        match resp with
        | .ok res => ⟨[call], ["Withdraw response: " ++ jsonStringify res], []⟩
        | .error e => ⟨[call], ["Error submitting withdrawal: " ++ jsErrShowC e], [e]⟩
      if avail.createWithdrawalV1 then
        run (SdkCall.createWithdrawalV1 currency amount address)
      else if avail.submitWithdrawV1 then
        run (SdkCall.submitWithdrawV1 currency amount address)
      else if avail.request then
        run (SdkCall.rawRequest "POST" "/wallet/withdrawal" currency amount address)
      else
        ⟨[], ["Error submitting withdrawal: " ++ jsErrShowC noWithdrawMethodErr],
         [noWithdrawMethodErr]⟩
    | _ => ⟨[], [], []⟩

/-- `bot.command('futures-order')` of variant C. -/
def futuresCHandler (avail : SdkAvailC) (text : String)
    (resp : Except JsErr Json) : HandlerResult :=
  let parts := jsSplitWs text
  if parts.length < 5 then
    ⟨[], ["Usage: /futures-order SYMBOL side size price\nExample: /futures-order BTCUSDT buy 1 30000"], []⟩
  else
    match parts with
    | _ :: symbol :: side :: size :: price :: _ =>
      if avail.submitContractOrder then
        let call := SdkCall.submitContractOrder symbol (jsToLower side) size price "limit"
        match resp with
        | .ok res => ⟨[call], ["Futures order response: " ++ jsonStringify res], []⟩
        | .error e => ⟨[call], ["Error placing futures order: " ++ jsErrShowC e], [e]⟩
      else
        ⟨[], ["Error placing futures order: " ++ jsErrShowC noFuturesMethodErr],
         [noFuturesMethodErr]⟩
    | _ => ⟨[], [], []⟩

/-! ## Command dispatch

Telegraf's `bot.command(name)` fires when the message text starts with
`/name` (optionally `/name@botmention`) followed by whitespace or the end of
the text.  `commandOf` extracts that name. -/

/-- The slash command a message text carries, if any. -/
def commandOf (text : String) : Option String :=
  match text.toList with
  | '/' :: rest => some (String.mk (rest.takeWhile fun c => ¬ isWsChar c ∧ c ≠ '@'))
  | _ => none

/-- Variant B `/start` greeting. -/
def startMsgB (firstName : Option String) : String :=
  "👋 Hello " ++ jsOrStr firstName "trader" ++ "!\n\n" ++
  "Here are available commands:\n" ++
  "/balance - Check your account balances\n" ++
  "/spotbuy BTC_USDT 0.001 30000 - Buy spot order\n" ++
  "/spotsell BTC_USDT 0.001 35000 - Sell spot order\n" ++
  "/withdraw USDT <address> 10 - Withdraw funds\n" ++
  "/futures BTCUSDT buy 1 30000 - Futures order"

/-- Variant C `/start` greeting. -/
def startMsgC (firstName : Option String) : String :=
  "Hello " ++ jsOrStr firstName "trader" ++
  "! Available commands:\n/balance\n/spot-buy symbol side amount price\n/spot-sell symbol side amount price\n/withdraw currency address amount\n/futures-order symbol side size price (for futures)"

/-- The SDK responses a variant-B message may consume, one per handler
(each handler awaits at most its own single call). -/
structure EnvB where
  firstName : Option String
  balance : Except JsErr BalRespB
  spotbuy : Except JsErr Json
  spotsell : Except JsErr Json
  withdraw : Except JsErr Json
  futures : Except JsErr Json

/-- Variant B message dispatch: `none` when no registered command matches. -/
def dispatchB (env : EnvB) (text : String) : Option HandlerResult :=
  match commandOf text with
  | some "start" => some ⟨[], [startMsgB env.firstName], []⟩
  | some "balance" => some (balanceBHandler env.balance)
  | some "spotbuy" => some (spotbuyHandler text env.spotbuy)
  | some "spotsell" => some (spotsellHandler text env.spotsell)
  | some "withdraw" => some (withdrawBHandler text env.withdraw)
  | some "futures" => some (futuresBHandler text env.futures)
  | _ => none

/-- The SDK responses a variant-C message may consume. -/
structure EnvC where
  firstName : Option String
  balance : Except JsErr BalRespC
  spotBuy : Except JsErr Json
  spotSell : Except JsErr Json
  withdraw : Except JsErr Json
  futures : Except JsErr Json

/-- Variant C message dispatch. -/
def dispatchC (avail : SdkAvailC) (env : EnvC) (text : String) : Option HandlerResult :=
  match commandOf text with
  | some "start" => some ⟨[], [startMsgC env.firstName], []⟩
  | some "balance" => some (balanceCHandler env.balance)
  | some "spot-buy" => some (spotBuyCHandler text env.spotBuy)
  | some "spot-sell" => some (spotSellCHandler text env.spotSell)
  | some "withdraw" => some (withdrawCHandler avail text env.withdraw)
  | some "futures-order" => some (futuresCHandler avail text env.futures)
  | _ => none

/-! ## The Stars → USDT exchange bot (`src/index.js`, first part)

The bot registers no Telegraf session middleware (there is no `bot.use(...)`
in the file), so `ctx.session` is a plain property of the per-update context:
every update begins with it `undefined`, and a handler's write to it is
discarded when the update ends.  The only mutable state that survives
between updates is the sqlite `sales` table, modelled as a list of rows
(the `created_at` wall-clock column is not modelled).  Each handler maps
its update and the current table to the session property at return time,
the table afterwards, the sqlite statements executed, and the outbound
Telegram messages; `starsHandleUpdate` below supplies the fresh
(`undefined`) session every actual update starts from. -/

/-- The `ctx.session` object: `{stars, usdt}` after an amount selection,
`{}` (both fields absent) after a completed payment. -/
structure Session where
  stars : Option ℕ
  usdt : Option String
deriving Repr, DecidableEq

/-- One row of the `sales` table.  `id` is the AUTOINCREMENT key; `usdt`
holds the bound value of `data.usdt`, which is the display string the bot
computed. -/
structure SaleRow where
  id : ℕ
  user_id : String
  username : String
  stars : ℕ
  usdt : String
  usdt_address : String
  paid : ℕ
deriving Repr, DecidableEq

/-- The sqlite statements the bot can issue against `sales`.  The code only
ever runs the `INSERT`; `selectByAddress` is the lookup-by-deposit-address
query the spec describes, included so its absence can be stated. -/
inductive DbOp where
  | insert (row : SaleRow)
  | selectByAddress (address : String)
deriving Repr, DecidableEq

/-- Is the statement a lookup (a `SELECT`)? -/
def isSelectOp : DbOp → Bool
  | .selectByAddress _ => true
  | .insert _ => false

/-- The invoice payload `JSON.stringify({stars, usdt, address})`.  The
payment handler reads it back with `JSON.parse`, an exact inverse on this
record, so it is carried structurally. -/
structure PayloadData where
  stars : ℕ
  usdt : String
  address : String
deriving Repr, DecidableEq

/-- The invoice the text handler sends via `ctx.replyWithInvoice`. -/
structure Invoice where
  title : String
  description : String
  currency : String
  prices : List (String × ℕ)
  payload : PayloadData
deriving Repr, DecidableEq

/-- Outbound Telegram effects of the Stars bot handlers. -/
inductive OutMsg where
  | reply (text : String)
  | editText (text : String)
  | invoice (inv : Invoice)
  | sendMessage (chat : String) (text : String)
deriving Repr, DecidableEq

/-- `ctx.from` fields the handlers read. -/
structure FromUser where
  id : ℕ
  username : Option String
  first_name : Option String
deriving Repr, DecidableEq

/-- Environment variables the handlers interpolate. -/
structure StarsEnv where
  adminUsername : String
deriving Repr, DecidableEq

/-- Result of one Stars-bot handler run: the update's `ctx.session`
property when the handler returns (discarded with the update, absent
session middleware), the `sales` table afterwards, the sqlite statements
executed, and the outbound messages. -/
structure StarsOut where
  session : Option Session
  db : List SaleRow
  ops : List DbOp
  messages : List OutMsg
deriving Repr, DecidableEq

/-- Truthiness of `ctx.session && ctx.session.stars`: an absent session, an
absent `stars` field, and `stars === 0` are all falsy. -/
def sessionStarsTruthy : Option Session → Bool
  | none => false
  | some s =>
    match s.stars with
    | none => false
    | some n => decide (n ≠ 0)

/-- `ctx.session.stars` as read by the destructuring (0 for the unreachable
absent case). -/
def sessGetStars : Option Session → ℕ
  | some s => s.stars.getD 0
  | none => 0

/-- `ctx.session.usdt` as interpolated into strings (`undefined` renders as
the text `undefined`). -/
def sessGetUsdt : Option Session → String
  | some s => s.usdt.getD "undefined"
  | none => "undefined"

/-- `bot.action(/stars_(\d+)/)`: `capture` is the digit group.  Computes the
display value, overwrites the session, and edits the inline message.  (The
nine buttons produce captures `250 … 100000`; `parseInt` on a digit string
is exact below `2 ^ 53`, which covers them all.) -/
def starsActionHandler (capture : String) (db : List SaleRow) : StarsOut :=
  let stars := parseIntNat capture
  let usdt := usdtDisplay stars
  { session := some ⟨some stars, some usdt⟩,
    db := db,
    ops := [],
    messages := [.editText
      ("You chose *" ++ toString stars ++ " Stars*.\nThis equals *" ++ usdt ++
       " USDT (TRC20)* 💵\n\nNow, please enter your *USDT TRC20 wallet address* where you’ll receive the payment.")] }

/-- `bot.on('text')`: `session` is the value of the update's `ctx.session`
when the handler runs (always `none` on an actual update, there being no
session middleware; the parameter embeds the handler body as written).
Without an active session it only asks the user to restart; otherwise it
trims the text into an address and sends the invoice (`amount: stars *
100000`, exact in doubles for every selectable amount) followed by a
confirmation reply.  It never touches the database and never writes the
session. -/
def textHandler (text : String) (session : Option Session) (db : List SaleRow) : StarsOut :=
  if sessionStarsTruthy session then
    let stars := sessGetStars session
    let usdt := sessGetUsdt session
    let address := jsTrim text
    let inv : Invoice :=
      { title := "Sell " ++ toString stars ++ " Stars",
        description := "Exchange " ++ toString stars ++ " Stars for " ++ usdt ++ " USDT (TRC20)",
        currency := "XTR",
        prices := [(toString stars ++ " Stars", stars * 100000)],
        payload := ⟨stars, usdt, address⟩ }
    { session := session,
      db := db,
      ops := [],
      messages := [.invoice inv,
        .reply ("Please pay using your Stars balance to confirm your sell order.\nOnce paid, the admin will send " ++
          usdt ++ " USDT to:\n`" ++ address ++ "`")] }
  else
    { session := session, db := db, ops := [],
      messages := [.reply "Use /start to begin again."] }

/-- The row the payment handler inserts: `AUTOINCREMENT` id, `String(id)`,
`username || '-'`, the payload fields, `paid = 1`. -/
def mkSaleRow (payload : PayloadData) (u : FromUser) (db : List SaleRow) : SaleRow :=
  { id := db.length + 1,
    user_id := toString u.id,
    username := jsOrStr u.username "-",
    stars := payload.stars,
    usdt := payload.usdt,
    usdt_address := payload.address,
    paid := 1 }

/-- `bot.on('successful_payment')`: parses the invoice payload, runs the one
`INSERT`, replies to the user, notifies the admin, and resets the session to
`{}`. -/
def successfulPaymentHandler (env : StarsEnv) (payload : PayloadData)
    (u : FromUser) (db : List SaleRow) : StarsOut :=
  let row := mkSaleRow payload u db
  { session := some ⟨none, none⟩,
    db := db ++ [row],
    ops := [DbOp.insert row],
    messages := [.reply
      ("✅ Payment received!\nYou sold *" ++ toString payload.stars ++ " Stars* for *" ++
       payload.usdt ++ " USDT*.\nAdmin will send your payment soon to:\n`" ++
       payload.address ++ "`"),
      .sendMessage ("@" ++ env.adminUsername)
      ("💰 *NEW SALE*\n\n👤 User: @" ++ jsOrStr u.username (toString u.id) ++
       "\n💫 Stars: " ++ toString payload.stars ++ "\n💵 USDT: " ++ payload.usdt ++
       "\n🏦 Wallet: `" ++ payload.address ++ "`\n\n✅ Payment completed via Stars.")] }

/-- An incoming Telegram update of the Stars bot (the updates whose
handlers touch state or invoices). -/
inductive StarsUpdate where
  | starsCallback (capture : String)
  | textMsg (text : String)
  | payment (payload : PayloadData) (u : FromUser)
deriving Repr, DecidableEq

/-- One update, handled as Telegraf actually runs it: a fresh context whose
`session` property is `undefined` (`none`), since `src/index.js` registers
no session middleware; only the table is carried in. -/
def starsHandleUpdate (env : StarsEnv) (u : StarsUpdate) (db : List SaleRow) : StarsOut :=
  match u with
  | .starsCallback capture => starsActionHandler capture db
  | .textMsg text => textHandler text none db
  | .payment payload usr => successfulPaymentHandler env payload usr db

/-- The table after a sequence of handled updates — the only state that
survives an update. -/
def runUpdates (env : StarsEnv) (us : List StarsUpdate) (db : List SaleRow) : List SaleRow :=
  us.foldl (fun d u => (starsHandleUpdate env u d).db) db

/-- Table state after a sequence of handled payment events. -/
def runPayments (env : StarsEnv) (events : List (PayloadData × FromUser))
    (db : List SaleRow) : List SaleRow :=
  events.foldl (fun d ev => (successfulPaymentHandler env ev.1 ev.2 d).db) db

/-- Number of `sales` rows carrying the given user id. -/
def countByUser (db : List SaleRow) (uid : String) : ℕ :=
  (db.filter fun r => r.user_id = uid).length

/-- Number of `sales` rows carrying the given deposit address. -/
def countByAddress (db : List SaleRow) (addr : String) : ℕ :=
  (db.filter fun r => r.usdt_address = addr).length

/-- The invoices among a handler's outbound messages. -/
def invoicesOf (msgs : List OutMsg) : List Invoice :=
  msgs.filterMap fun m =>
    match m with
    | .invoice i => some i
    | _ => none

/-- The `stars` field of the session, `none` when the session or the field
is absent (the condition named by the claims about the text handler). -/
def sessionStarsField : Option Session → Option ℕ
  | none => none
  | some s => s.stars

/-- The nine selectable amounts offered by the `sell_stars` inline
keyboard (`stars_250` … `stars_100000`). -/
def starsButtons : List ℕ :=
  [250, 500, 1000, 2500, 5000, 10000, 25000, 50000, 100000]

/-- Stated from the claim, for comparison with `usdtDisplay`: the
two-decimal rounding (half up) of the exact rational `n × 0.0039`,
rendered with two decimals.  `n × 0.0039 × 100 = 39 n / 100`, so the
rounded hundredths are `⌊39 n / 100 + 1 / 2⌋ = (78 n + 100) / 200`. -/
def claimedDisplay (n : ℕ) : String :=
  let k := (78 * n + 100) / 200
  toString (k / 100) ++ "." ++ pad2 (k % 100)

/-- Price amounts of the invoices the text handler builds for the session
value the `stars_n` callback assigns (one inner list per invoice) — the
text handler instantiated at exactly the `{stars, usdt}` object the
callback's code writes.  (Absent session middleware that object is not
delivered across updates — see the C6 theorem — so this exercises the
invoice construction the source spells out, not a reachable run.) -/
def invoiceAmounts (n : ℕ) : List (List ℕ) :=
  (invoicesOf
      ((textHandler "TADDRESS" (starsActionHandler (toString n) []).session []).messages)).map
    fun i => i.prices.map Prod.snd

/-! # Theorems -/

/-- C1 counterexample.  The payment handler does not match the incoming
notification to a stored record by address: started on a store that already
holds a row with exactly the notification's deposit address, it sends the
very same chat messages as on an empty store, issues no lookup, and instead
appends a second row with that address. -/
theorem c1_counterexample :
    (successfulPaymentHandler ⟨"admin"⟩ ⟨250, "0.97", "TRAddrX"⟩ ⟨7, some "alice", some "Alice"⟩
        [⟨1, "9", "bob", 500, "1.95", "TRAddrX", 1⟩]).messages =
      (successfulPaymentHandler ⟨"admin"⟩ ⟨250, "0.97", "TRAddrX"⟩ ⟨7, some "alice", some "Alice"⟩
        []).messages ∧
    (successfulPaymentHandler ⟨"admin"⟩ ⟨250, "0.97", "TRAddrX"⟩ ⟨7, some "alice", some "Alice"⟩
        [⟨1, "9", "bob", 500, "1.95", "TRAddrX", 1⟩]).ops.filter isSelectOp = [] ∧
    countByAddress (successfulPaymentHandler ⟨"admin"⟩ ⟨250, "0.97", "TRAddrX"⟩
        ⟨7, some "alice", some "Alice"⟩
        [⟨1, "9", "bob", 500, "1.95", "TRAddrX", 1⟩]).db "TRAddrX" = 2 := by
  refine ⟨rfl, rfl, ?_⟩
  decide

/-- C1 (amended): the payment handler parses the notification's invoice
payload and, with a single database statement — an `INSERT` of a new paid
record carrying the payload's address, never a lookup — appends one row;
it then sends a chat notification to the user and one to the admin.  Its
messages are independent of the stored records. -/
theorem c1_insert_and_notify (env : StarsEnv) (payload : PayloadData)
    (u : FromUser) (db : List SaleRow) :
    (successfulPaymentHandler env payload u db).ops =
      [DbOp.insert (mkSaleRow payload u db)] ∧
    ((successfulPaymentHandler env payload u db).ops.filter isSelectOp) = [] ∧
    (successfulPaymentHandler env payload u db).db =
      db ++ [mkSaleRow payload u db] ∧
    (successfulPaymentHandler env payload u db).messages.length = 2 ∧
    (successfulPaymentHandler env payload u db).messages =
      (successfulPaymentHandler env payload u []).messages :=
  ⟨rfl, rfl, rfl, rfl, rfl⟩

/-- C2 counterexample.  The `sales` table is not one-row-per-user: after two
handled payment events of the same user (a reachable state from the empty
table), the table holds two rows with that user id — and two with the same
address. -/
theorem c2_counterexample :
    countByUser (runPayments ⟨"admin"⟩
        [(⟨250, "0.97", "TRAddrX"⟩, ⟨7, some "alice", some "Alice"⟩),
         (⟨250, "0.97", "TRAddrX"⟩, ⟨7, some "alice", some "Alice"⟩)]
        []) "7" = 2 ∧
    countByAddress (runPayments ⟨"admin"⟩
        [(⟨250, "0.97", "TRAddrX"⟩, ⟨7, some "alice", some "Alice"⟩),
         (⟨250, "0.97", "TRAddrX"⟩, ⟨7, some "alice", some "Alice"⟩)]
        []) "TRAddrX" = 2 := by
  decide

/-- C2 (amended): the `sales` table is an append-only log, one new row per
handled payment event — each handled event appends exactly the freshly built
row and adds at most one row to any user id's count. -/
theorem c2_append_only (env : StarsEnv) (payload : PayloadData)
    (u : FromUser) (db : List SaleRow) :
    (successfulPaymentHandler env payload u db).db =
      db ++ [mkSaleRow payload u db] ∧
    ∀ uid : String,
      countByUser (successfulPaymentHandler env payload u db).db uid ≤
        countByUser db uid + 1 := by
  refine ⟨rfl, fun uid => ?_⟩
  show countByUser (db ++ [mkSaleRow payload u db]) uid ≤ _
  unfold countByUser
  rw [List.filter_append, List.length_append]
  have : (List.filter (fun r => decide (r.user_id = uid)) [mkSaleRow payload u db]).length ≤ 1 := by
    simp only [List.filter]
    split <;> simp
  omega

/-- C8: a plain text message arriving while the session is absent or has no
`stars` field is answered with exactly `Use /start to begin again.`; no
invoice is sent, no database statement runs, and the state (session and
table alike) is unchanged. -/
theorem c8_inactive_session_reply (text : String) (session : Option Session)
    (db : List SaleRow) (h : sessionStarsField session = none) :
    textHandler text session db =
      ⟨session, db, [], [OutMsg.reply "Use /start to begin again."]⟩ := by
  unfold textHandler
  have hf : sessionStarsTruthy session = false := by
    unfold sessionStarsField at h
    cases hst : session with
    | none => rfl
    | some s =>
      rw [hst] at h
      have h2 : s.stars = none := h
      simp only [sessionStarsTruthy]
      rw [h2]
  rw [hf]
  rfl

/-- C8 witness: the reply at a concrete absent session — which, with no
session middleware registered, is what every actual text update carries. -/
theorem c8_inactive_session_reply_witness :
    textHandler "TQmGc3Nf3vuzAB9PeEYhXE8QDWDQVDT5QAn" none [] =
      ⟨none, [], [], [OutMsg.reply "Use /start to begin again."]⟩ :=
  c8_inactive_session_reply "TQmGc3Nf3vuzAB9PeEYhXE8QDWDQVDT5QAn" none [] rfl

/-- C9 counterexample.  The two `/balance` filters are not equivalent on all
numeric fields: for `available = "1"`, `frozen = "-1"` (both parse to
numbers), the `||` filter of variant B keeps the entry while the sum filter
of variant C drops it. -/
theorem c9_counterexample :
    jsParseFloat "1" = some ⟨1, 0⟩ ∧
    jsParseFloat "-1" = some ⟨-1, 0⟩ ∧
    balanceFilterB ⟨"XYZ", "1", "-1"⟩ = true ∧
    balanceFilterC ⟨"XYZ", "1", "-1"⟩ = false := by
  decide

/-- C9 (amended): on entries whose `available` and `frozen` fields parse to
nonnegative numbers — which covers every well-formed exchange balance — the
two variants' filters select exactly the same entries. -/
theorem c9_filters_agree_nonneg (b : RawBalance) (a f : Dec10)
    (ha : jsParseFloat b.available = some a)
    (hf : jsParseFloat b.frozen = some f)
    (ha0 : 0 ≤ a.num) (hf0 : 0 ≤ f.num) :
    balanceFilterB b = balanceFilterC b := by
  unfold balanceFilterB balanceFilterC
  rw [ha, hf]
  unfold jsAddNum jsGtZero
  have p10 : ∀ k : ℕ, (0 : ℤ) < 10 ^ k := fun k => pow_pos (by norm_num) k
  rcases lt_or_eq_of_le ha0 with hapos | haz
  · have : (0 : ℤ) < a.num * 10 ^ f.den10 + f.num * 10 ^ a.den10 := by
      have h1 : (0 : ℤ) < a.num * 10 ^ f.den10 := mul_pos hapos (p10 _)
      have h2 : (0 : ℤ) ≤ f.num * 10 ^ a.den10 := mul_nonneg hf0 (le_of_lt (p10 _))
      omega
    simp [hapos, this]
  · rcases lt_or_eq_of_le hf0 with hfpos | hfz
    · have : (0 : ℤ) < a.num * 10 ^ f.den10 + f.num * 10 ^ a.den10 := by
        have h1 : (0 : ℤ) ≤ a.num * 10 ^ f.den10 := mul_nonneg ha0 (le_of_lt (p10 _))
        have h2 : (0 : ℤ) < f.num * 10 ^ a.den10 := mul_pos hfpos (p10 _)
        omega
      simp [hfpos, this]
    · simp [← haz, ← hfz]

/-- C9 witness: the two filters agree at a concrete nonnegative entry. -/
theorem c9_filters_agree_nonneg_witness :
    balanceFilterB ⟨"USDT", "2.5", "0"⟩ = balanceFilterC ⟨"USDT", "2.5", "0"⟩ :=
  c9_filters_agree_nonneg ⟨"USDT", "2.5", "0"⟩ ⟨25, 1⟩ ⟨0, 0⟩
    (by decide) (by decide) (by decide) (by decide)

/-- C7 counterexample.  For the 250-stars button the handler does not
display the two-decimal rounding of the exact product: `250 × 0.0039 =
0.975` rounds to `0.98`, but the double-precision product is
`0.97499999999999997…`, so `toFixed(2)` yields `0.97`, and that is what the
handler stores and shows. -/
theorem c7_counterexample :
    usdtDisplay 250 = "0.97" ∧
    claimedDisplay 250 = "0.98" ∧
    (starsActionHandler "250" []).session = some ⟨some 250, some "0.97"⟩ := by
  decide

/-- C7 (amended): for the eight amounts other than 250 the handler's
display equals the two-decimal rounding of `n × 0.0039`; for 250 the
binary64 product rounds down and displays `0.97`; and for every selectable
amount the invoice sent for the order carries a single price of exactly
`n × 100000` integer units. -/
theorem c7_numerical :
    starsButtons.map usdtDisplay =
      ["0.97", "1.95", "3.90", "9.75", "19.50", "39.00", "97.50", "195.00", "390.00"] ∧
    (starsButtons.filter (fun n => n ≠ 250)).map usdtDisplay =
      (starsButtons.filter (fun n => n ≠ 250)).map claimedDisplay ∧
    usdtDisplay 250 ≠ claimedDisplay 250 ∧
    starsButtons.map invoiceAmounts = starsButtons.map (fun n => [[n * 100000]]) := by
  refine ⟨by decide, by decide, by decide, by decide⟩

/-- C6: handling of distinct incoming messages is independent per-message.
`src/index.js` registers no Telegraf session middleware, so `ctx.session`
is a property of each update's fresh context: the amount-selection
handler's write is discarded with its update and every later handler
starts from an undefined session.  The only mutable state surviving
between updates is the `sales` table, and no handler's replies read it:
every update's outbound messages are the same whatever the table holds,
and a text message is answered with the restart prompt whatever was
written while handling any earlier sequence of updates (callbacks and
payments included).  The BitMart handlers receive only the message text
and their single call's response, so their independence is definitional. -/
theorem c6_independent_messages :
    (∀ (env : StarsEnv) (u : StarsUpdate) (db db2 : List SaleRow),
       (starsHandleUpdate env u db).messages = (starsHandleUpdate env u db2).messages) ∧
    (∀ (env : StarsEnv) (us : List StarsUpdate) (text : String) (db : List SaleRow),
       (starsHandleUpdate env (StarsUpdate.textMsg text) (runUpdates env us db)).messages =
         [OutMsg.reply "Use /start to begin again."]) := by
  constructor
  · intro env u db db2
    cases u <;> rfl
  · intro env us text db
    rfl

/-- A list with four leading elements is not shorter than four. -/
theorem len4_not_lt (a b c d : String) (t : List String) :
    ¬ ((a :: b :: c :: d :: t).length < 4) := by
  simp only [List.length_cons]
  omega

/-- A list with five leading elements is not shorter than five. -/
theorem len5_not_lt (a b c d e : String) (t : List String) :
    ¬ ((a :: b :: c :: d :: e :: t).length < 5) := by
  simp only [List.length_cons]
  omega

/-- C3 counterexample.  `/balance` does not reply with a serialization of
the raw response: two different responses — one holding a `BTC` entry with
zero balances, one with no `data` at all — draw the identical constant
reply, which does not even mention the response's currency; a reply that is
a serialization of the raw response would differ between distinct
responses and carry their content. -/
theorem c3_counterexample :
    (balanceBHandler (Except.ok ⟨some ⟨some [⟨"BTC", "0", "0"⟩]⟩⟩)).replies =
      ["No non-zero balances found."] ∧
    (balanceBHandler (Except.ok ⟨none⟩)).replies = ["No non-zero balances found."] ∧
    containsSub "No non-zero balances found." "BTC" = false ∧
    (⟨some ⟨some [⟨"BTC", "0", "0"⟩]⟩⟩ : BalRespB) ≠ (⟨none⟩ : BalRespB) := by
  decide

/-- C3 (amended): every order-placement and withdrawal command whose
argument count meets the handler's minimum builds exactly one parameter
object from the parsed command line, issues exactly that one SDK call, and
— when the call succeeds — replies with a fixed prefix followed by the
JSON serialization of the raw response.  `/balance` issues its one
parameterless SDK call but replies with a filtered per-currency rendering
of the response (or a fixed message when every balance is zero), not a
serialization of it. -/
theorem c3_command_glue :
    (∀ (text c symbol size price : String) (rest : List String) (res : Json),
       jsSplitSpace text = c :: symbol :: size :: price :: rest →
       spotbuyHandler text (Except.ok res) =
         ⟨[SdkCall.spotSubmitOrder symbol "buy" "limit" size price],
          ["✅ Spot BUY order placed!\n" ++ jsonStringify res], []⟩) ∧
    (∀ (text c symbol size price : String) (rest : List String) (res : Json),
       jsSplitSpace text = c :: symbol :: size :: price :: rest →
       spotsellHandler text (Except.ok res) =
         ⟨[SdkCall.spotSubmitOrder symbol "sell" "limit" size price],
          ["✅ Spot SELL order placed!\n" ++ jsonStringify res], []⟩) ∧
    (∀ (text c currency address amount : String) (rest : List String) (res : Json),
       jsSplitSpace text = c :: currency :: address :: amount :: rest →
       withdrawBHandler text (Except.ok res) =
         ⟨[SdkCall.submitWithdraw currency amount address "TRC20"],
          ["✅ Withdrawal submitted!\n" ++ jsonStringify res], []⟩) ∧
    (∀ (text c symbol side size price : String) (rest : List String) (res : Json),
       jsSplitSpace text = c :: symbol :: side :: size :: price :: rest →
       futuresBHandler text (Except.ok res) =
         ⟨[SdkCall.futuresSubmitOrder symbol (jsToUpper side) "limit" size price],
          ["✅ Futures order placed!\n" ++ jsonStringify res], []⟩) ∧
    (∀ (text c symbol side size price : String) (rest : List String) (res : Json),
       jsSplitWs text = c :: symbol :: side :: size :: price :: rest →
       spotBuyCHandler text (Except.ok res) =
         ⟨[SdkCall.submitSpotOrderV2 symbol side "limit" size price],
          ["Spot order response: " ++ jsonStringify res], []⟩) ∧
    (∀ (text c symbol side size price : String) (rest : List String) (res : Json),
       jsSplitWs text = c :: symbol :: side :: size :: price :: rest →
       spotSellCHandler text (Except.ok res) =
         ⟨[SdkCall.submitSpotOrderV2 symbol side "limit" size price],
          ["Spot sell response: " ++ jsonStringify res], []⟩) ∧
    (∀ (avail : SdkAvailC) (text c currency address amount : String)
       (rest : List String) (res : Json),
       avail.createWithdrawalV1 = true →
       jsSplitWs text = c :: currency :: address :: amount :: rest →
       withdrawCHandler avail text (Except.ok res) =
         ⟨[SdkCall.createWithdrawalV1 currency amount address],
          ["Withdraw response: " ++ jsonStringify res], []⟩) ∧
    (∀ (avail : SdkAvailC) (text c symbol side size price : String)
       (rest : List String) (res : Json),
       avail.submitContractOrder = true →
       jsSplitWs text = c :: symbol :: side :: size :: price :: rest →
       futuresCHandler avail text (Except.ok res) =
         ⟨[SdkCall.submitContractOrder symbol (jsToLower side) size price "limit"],
          ["Futures order response: " ++ jsonStringify res], []⟩) ∧
    (∀ r : BalRespB, (balanceBHandler (Except.ok r)).calls = [SdkCall.getAccountBalance]) ∧
    (∀ r : BalRespC, (balanceCHandler (Except.ok r)).calls = [SdkCall.getAccountBalancesV1]) := by
  refine ⟨?_, ?_, ?_, ?_, ?_, ?_, ?_, ?_, ?_, ?_⟩
  · intro text c symbol size price rest res h
    simp only [spotbuyHandler, h]
    rw [if_neg (len4_not_lt c symbol size price rest)]
  · intro text c symbol size price rest res h
    simp only [spotsellHandler, h]
    rw [if_neg (len4_not_lt c symbol size price rest)]
  · intro text c currency address amount rest res h
    simp only [withdrawBHandler, h]
    rw [if_neg (len4_not_lt c currency address amount rest)]
  · intro text c symbol side size price rest res h
    simp only [futuresBHandler, h]
    rw [if_neg (len5_not_lt c symbol side size price rest)]
  · intro text c symbol side size price rest res h
    simp only [spotBuyCHandler, h]
    rw [if_neg (len5_not_lt c symbol side size price rest)]
  · intro text c symbol side size price rest res h
    simp only [spotSellCHandler, h]
    rw [if_neg (len5_not_lt c symbol side size price rest)]
  · intro avail text c currency address amount rest res ha h
    simp only [withdrawCHandler, h]
    rw [if_neg (len4_not_lt c currency address amount rest)]
    simp only [ha, if_true]
  · intro avail text c symbol side size price rest res ha h
    simp only [futuresCHandler, h]
    rw [if_neg (len5_not_lt c symbol side size price rest)]
    simp only [ha, if_true]
  · intro r
    simp only [balanceBHandler]
    split <;> rfl
  · intro r
    simp only [balanceCHandler]
    split <;> rfl

/-- C3 witness: a concrete `/spotbuy` with enough arguments and a succeeding
SDK call. -/
theorem c3_command_glue_witness :
    spotbuyHandler "/spotbuy BTC_USDT 0.001 30000" (Except.ok (Json.num 1)) =
      ⟨[SdkCall.spotSubmitOrder "BTC_USDT" "buy" "limit" "0.001" "30000"],
       ["✅ Spot BUY order placed!\n" ++ jsonStringify (Json.num 1)], []⟩ :=
  c3_command_glue.1 "/spotbuy BTC_USDT 0.001 30000" "/spotbuy" "BTC_USDT" "0.001" "30000"
    [] (Json.num 1) (by decide)

/-- C4: failure handling is exactly catch-and-print.  Whenever the single
SDK call of a handler rejects, the handler catches the error, logs exactly
it, replies once with the handler's error prefix followed by the rendered
error message, issues no further SDK call (the call list stays the one
rejected call), and returns normally — a `HandlerResult` records every
effect a handler has, so nothing else changes and nothing propagates. -/
theorem c4_catch_and_print :
    (∀ e : JsErr, balanceBHandler (Except.error e) =
       ⟨[SdkCall.getAccountBalance], ["❌ Error getting balance: " ++ jsErrShowB e], [e]⟩) ∧
    (∀ (text c symbol size price : String) (rest : List String) (e : JsErr),
       jsSplitSpace text = c :: symbol :: size :: price :: rest →
       spotbuyHandler text (Except.error e) =
         ⟨[SdkCall.spotSubmitOrder symbol "buy" "limit" size price],
          ["❌ Error placing buy order: " ++ jsErrShowB e], [e]⟩) ∧
    (∀ (text c symbol size price : String) (rest : List String) (e : JsErr),
       jsSplitSpace text = c :: symbol :: size :: price :: rest →
       spotsellHandler text (Except.error e) =
         ⟨[SdkCall.spotSubmitOrder symbol "sell" "limit" size price],
          ["❌ Error placing sell order: " ++ jsErrShowB e], [e]⟩) ∧
    (∀ (text c currency address amount : String) (rest : List String) (e : JsErr),
       jsSplitSpace text = c :: currency :: address :: amount :: rest →
       withdrawBHandler text (Except.error e) =
         ⟨[SdkCall.submitWithdraw currency amount address "TRC20"],
          ["❌ Error submitting withdrawal: " ++ jsErrShowB e], [e]⟩) ∧
    (∀ (text c symbol side size price : String) (rest : List String) (e : JsErr),
       jsSplitSpace text = c :: symbol :: side :: size :: price :: rest →
       futuresBHandler text (Except.error e) =
         ⟨[SdkCall.futuresSubmitOrder symbol (jsToUpper side) "limit" size price],
          ["❌ Error placing futures order: " ++ jsErrShowB e], [e]⟩) ∧
    (∀ e : JsErr, balanceCHandler (Except.error e) =
       ⟨[SdkCall.getAccountBalancesV1], ["Error fetching balances: " ++ jsErrShowC e], [e]⟩) ∧
    (∀ (text c symbol side size price : String) (rest : List String) (e : JsErr),
       jsSplitWs text = c :: symbol :: side :: size :: price :: rest →
       spotBuyCHandler text (Except.error e) =
         ⟨[SdkCall.submitSpotOrderV2 symbol side "limit" size price],
          ["Error placing spot buy: " ++ jsErrShowC e], [e]⟩) ∧
    (∀ (text c symbol side size price : String) (rest : List String) (e : JsErr),
       jsSplitWs text = c :: symbol :: side :: size :: price :: rest →
       spotSellCHandler text (Except.error e) =
         ⟨[SdkCall.submitSpotOrderV2 symbol side "limit" size price],
          ["Error placing spot sell: " ++ jsErrShowC e], [e]⟩) ∧
    (∀ (avail : SdkAvailC) (text c currency address amount : String)
       (rest : List String) (e : JsErr),
       avail.createWithdrawalV1 = true →
       jsSplitWs text = c :: currency :: address :: amount :: rest →
       withdrawCHandler avail text (Except.error e) =
         ⟨[SdkCall.createWithdrawalV1 currency amount address],
          ["Error submitting withdrawal: " ++ jsErrShowC e], [e]⟩) ∧
    (∀ (avail : SdkAvailC) (text c symbol side size price : String)
       (rest : List String) (e : JsErr),
       avail.submitContractOrder = true →
       jsSplitWs text = c :: symbol :: side :: size :: price :: rest →
       futuresCHandler avail text (Except.error e) =
         ⟨[SdkCall.submitContractOrder symbol (jsToLower side) size price "limit"],
          ["Error placing futures order: " ++ jsErrShowC e], [e]⟩) := by
  refine ⟨fun e => rfl, ?_, ?_, ?_, ?_, fun e => rfl, ?_, ?_, ?_, ?_⟩
  · intro text c symbol size price rest e h
    simp only [spotbuyHandler, h]
    rw [if_neg (len4_not_lt c symbol size price rest)]
  · intro text c symbol size price rest e h
    simp only [spotsellHandler, h]
    rw [if_neg (len4_not_lt c symbol size price rest)]
  · intro text c currency address amount rest e h
    simp only [withdrawBHandler, h]
    rw [if_neg (len4_not_lt c currency address amount rest)]
  · intro text c symbol side size price rest e h
    simp only [futuresBHandler, h]
    rw [if_neg (len5_not_lt c symbol side size price rest)]
  · intro text c symbol side size price rest e h
    simp only [spotBuyCHandler, h]
    rw [if_neg (len5_not_lt c symbol side size price rest)]
  · intro text c symbol side size price rest e h
    simp only [spotSellCHandler, h]
    rw [if_neg (len5_not_lt c symbol side size price rest)]
  · intro avail text c currency address amount rest e ha h
    simp only [withdrawCHandler, h]
    rw [if_neg (len4_not_lt c currency address amount rest)]
    simp only [ha, if_true]
  · intro avail text c symbol side size price rest e ha h
    simp only [futuresCHandler, h]
    rw [if_neg (len5_not_lt c symbol side size price rest)]
    simp only [ha, if_true]

/-- C4 witness: a concrete `/spotbuy` whose SDK call rejects with message
`boom` is answered by the error reply alone. -/
theorem c4_catch_and_print_witness :
    spotbuyHandler "/spotbuy BTC_USDT 0.001 30000" (Except.error ⟨some "boom", Json.null⟩) =
      ⟨[SdkCall.spotSubmitOrder "BTC_USDT" "buy" "limit" "0.001" "30000"],
       ["❌ Error placing buy order: " ++ jsErrShowB ⟨some "boom", Json.null⟩],
       [⟨some "boom", Json.null⟩]⟩ :=
  c4_catch_and_print.2.1 "/spotbuy BTC_USDT 0.001 30000" "/spotbuy" "BTC_USDT" "0.001" "30000"
    [] ⟨some "boom", Json.null⟩ (by decide)

/-- Every branch of variant B's `/balance` issues at most one call. -/
theorem balanceBHandler_calls_le (resp : Except JsErr BalRespB) :
    (balanceBHandler resp).calls.length ≤ 1 := by
  simp only [balanceBHandler]
  repeat' split
  all_goals simp

/-- Every branch of `/spotbuy` issues at most one call. -/
theorem spotbuyHandler_calls_le (text : String) (resp : Except JsErr Json) :
    (spotbuyHandler text resp).calls.length ≤ 1 := by
  simp only [spotbuyHandler]
  repeat' split
  all_goals simp

/-- Every branch of `/spotsell` issues at most one call. -/
theorem spotsellHandler_calls_le (text : String) (resp : Except JsErr Json) :
    (spotsellHandler text resp).calls.length ≤ 1 := by
  simp only [spotsellHandler]
  repeat' split
  all_goals simp

/-- Every branch of variant B's `/withdraw` issues at most one call. -/
theorem withdrawBHandler_calls_le (text : String) (resp : Except JsErr Json) :
    (withdrawBHandler text resp).calls.length ≤ 1 := by
  simp only [withdrawBHandler]
  repeat' split
  all_goals simp

/-- Every branch of `/futures` issues at most one call. -/
theorem futuresBHandler_calls_le (text : String) (resp : Except JsErr Json) :
    (futuresBHandler text resp).calls.length ≤ 1 := by
  simp only [futuresBHandler]
  repeat' split
  all_goals simp

/-- Every branch of variant C's `/balance` issues at most one call. -/
theorem balanceCHandler_calls_le (resp : Except JsErr BalRespC) :
    (balanceCHandler resp).calls.length ≤ 1 := by
  simp only [balanceCHandler]
  repeat' split
  all_goals simp

/-- Every branch of `/spot-buy` issues at most one call. -/
theorem spotBuyCHandler_calls_le (text : String) (resp : Except JsErr Json) :
    (spotBuyCHandler text resp).calls.length ≤ 1 := by
  simp only [spotBuyCHandler]
  repeat' split
  all_goals simp

/-- Every branch of `/spot-sell` issues at most one call. -/
theorem spotSellCHandler_calls_le (text : String) (resp : Except JsErr Json) :
    (spotSellCHandler text resp).calls.length ≤ 1 := by
  simp only [spotSellCHandler]
  repeat' split
  all_goals simp

/-- Every branch of variant C's `/withdraw` — including the three method
probes and the throwing fallback — issues at most one call. -/
theorem withdrawCHandler_calls_le (avail : SdkAvailC) (text : String)
    (resp : Except JsErr Json) :
    (withdrawCHandler avail text resp).calls.length ≤ 1 := by
  simp only [withdrawCHandler]
  repeat' split
  all_goals simp

/-- Every branch of `/futures-order` issues at most one call. -/
theorem futuresCHandler_calls_le (avail : SdkAvailC) (text : String)
    (resp : Except JsErr Json) :
    (futuresCHandler avail text resp).calls.length ≤ 1 := by
  simp only [futuresCHandler]
  repeat' split
  all_goals simp

/-- C5: for every incoming message of either BitMart bot, the dispatched
handler issues at most one outbound SDK call — a failed call is never
retried and no handler makes a second call. -/
theorem c5_at_most_one_call :
    (∀ (env : EnvB) (text : String) (r : HandlerResult),
       dispatchB env text = some r → r.calls.length ≤ 1) ∧
    (∀ (avail : SdkAvailC) (env : EnvC) (text : String) (r : HandlerResult),
       dispatchC avail env text = some r → r.calls.length ≤ 1) := by
  constructor
  · intro env text r h
    unfold dispatchB at h
    split at h <;>
      first
        | exact Option.noConfusion h
        | (injection h with h2
           rw [← h2]
           first
             | simp
             | exact balanceBHandler_calls_le _
             | exact spotbuyHandler_calls_le _ _
             | exact spotsellHandler_calls_le _ _
             | exact withdrawBHandler_calls_le _ _
             | exact futuresBHandler_calls_le _ _)
  · intro avail env text r h
    unfold dispatchC at h
    split at h <;>
      first
        | exact Option.noConfusion h
        | (injection h with h2
           rw [← h2]
           first
             | simp
             | exact balanceCHandler_calls_le _
             | exact spotBuyCHandler_calls_le _ _
             | exact spotSellCHandler_calls_le _ _
             | exact withdrawCHandler_calls_le _ _ _
             | exact futuresCHandler_calls_le _ _ _)

/-- C5 witness: `/balance` with a concrete empty response makes at most one
call. -/
theorem c5_at_most_one_call_witness :
    (balanceBHandler (Except.ok ⟨none⟩)).calls.length ≤ 1 :=
  c5_at_most_one_call.1
    ⟨none, Except.ok ⟨none⟩, Except.ok Json.null, Except.ok Json.null,
     Except.ok Json.null, Except.ok Json.null⟩
    "/balance" _ rfl

end MyWallet
